import Mathlib

/-!
Verification of the geofence MMDB reader core (internal/data) and the two
Check handlers (internal/handler/check, internal/handler/grpc).

The external geoip2 library is modelled as an abstract capability record
(GeoEnv): opening a path yields an error or a handle id, querying a handle
yields an error or a country record, and closing a handle yields an error
or success.  Go errors are modelled as strings; fmt.Errorf wrapping is
string concatenation.  net.IP is abstract (a string), and net.ParseIP is a
parameter of the handler models.

Two levels of model are used:
- a sequential model of each method of MmdbReader (NewMmdbReader,
  LookupCountry, Close, reload, and the watcher event-loop body), and
- a small-step interleaving model (SysState / sysStep) of one lookup
  goroutine racing with the reload path, with the atomic.Pointer slot, the
  set of Close()d handles, and the per-thread program positions explicit.
-/

/-- Abstract model of net.IP: the handlers obtain one from net.ParseIP. -/
abbrev IP := String

/-- The geoip2 country record, restricted to the one field the code reads
(record.Country.IsoCode). -/
structure GeoRecord where
  isoCode : String
deriving Repr, DecidableEq

/-- Abstract capability model of the external geoip2 library: Open, the
Country query on a handle, and Close.  Handles are ids (Nat). -/
structure GeoEnv where
  openResult : String → Except String Nat
  country : Nat → IP → Except String GeoRecord
  closeResult : Nat → Except String Unit

/-- Sequential model of the MmdbReader struct: the active-handle slot
(db), the watched path, whether the done channel has been closed, and
whether the background watcher goroutine was started. -/
structure MmdbReader where
  db : Nat
  path : String
  doneClosed : Bool
  watcherRunning : Bool
deriving Repr, DecidableEq

/-- Model of NewMmdbReader: geoip2.Open the path; on error return the
wrapped error (and no watcher is started, since the code returns before
startWatcher); on success store the handle, attempt to start the watcher
(watchOk says whether fsnotify setup succeeds; on failure the code only
logs and continues), and return the reader.  The second component records
whether a background watching goroutine is left running. -/
def NewMmdbReader (env : GeoEnv) (watchOk : Bool) (path : String) :
    Except String MmdbReader × Bool :=
  match env.openResult path with
  | .error e => (.error ("failed to open MMDB file: " ++ e), false)
  | .ok db =>
      (.ok { db := db, path := path, doneClosed := false, watcherRunning := watchOk },
       watchOk)

/-- Model of MmdbReader.LookupCountry: query the currently-active handle;
wrap a query error; otherwise return record.Country.IsoCode unchanged
(note: no emptiness check here in the code). -/
def MmdbReader.LookupCountry (r : MmdbReader) (env : GeoEnv) (ip : IP) :
    Except String String :=
  match env.country r.db ip with
  | .error e => .error ("country lookup failed: " ++ e)
  | .ok record => .ok record.isoCode

/-- Outcome of MmdbReader.Close: closing an already-closed done channel
panics in Go; otherwise the call returns the result of releasing the
active handle. -/
inductive CloseOutcome where
  | panicked
  | returned (result : Except String Unit)
deriving Repr

/-- Model of MmdbReader.Close: close(r.done) panics if done is already
closed; otherwise the watcher is signalled to stop (doneClosed := true)
and the call returns r.db.Load().Close(). -/
def MmdbReader.Close (r : MmdbReader) (env : GeoEnv) : CloseOutcome × MmdbReader :=
  if r.doneClosed then (.panicked, r)
  else (.returned (env.closeResult r.db), { r with doneClosed := true })

/-- Model of MmdbReader.reload: geoip2.Open the watched path; on error
return the wrapped error with the reader state untouched; on success swap
the new handle into the slot (the Close error of the old handle is only
logged, so it does not appear in the result). -/
def MmdbReader.reload (r : MmdbReader) (env : GeoEnv) :
    Except String Unit × MmdbReader :=
  match env.openResult r.path with
  | .error e => (.error ("failed to open new MMDB file: " ++ e), r)
  | .ok newDB => (.ok (), { r with db := newDB })

/-- Model of Go path/filepath.Base (unix): empty path gives ".", trailing
slashes are dropped, the component after the last slash is kept, and an
all-slash path gives "/". -/
def filepathBase (p : String) : String :=
  if p = "" then "."
  else
    let rcs := p.toList.reverse.dropWhile (fun c => c == '/')
    let name := (rcs.takeWhile (fun c => c != '/')).reverse
    if name.isEmpty then "/" else String.mk name

/-- fsnotify.Create bit. -/
def fsnotifyCreate : Nat := 1

/-- fsnotify.Write bit. -/
def fsnotifyWrite : Nat := 2

/-- Model of fsnotify Op.Has: bitmask containment. -/
def opHas (o flag : Nat) : Bool := o &&& flag == flag

/-- An fsnotify event: file name and operation bitmask. -/
structure FsEvent where
  name : String
  op : Nat
deriving Repr, DecidableEq

/-- Model of the body of the watcher loop in startWatcher for one received
event: skip the event unless filepath.Base(event.Name) equals the base of
the watched path; reload only on Write or Create (reload errors are only
logged).  Returns whether a reload was attempted, and the reader state
afterwards. -/
def MmdbReader.handleEvent (r : MmdbReader) (env : GeoEnv) (e : FsEvent) :
    Bool × MmdbReader :=
  let base := filepathBase r.path
  if filepathBase e.name != base then (false, r)
  else if opHas e.op fsnotifyWrite || opHas e.op fsnotifyCreate then
    (true, (r.reload env).2)
  else (false, r)

/-- Request body shared by both Check handlers. -/
structure CheckRequest where
  ip : String
  allowedCountries : List String
deriving Repr, DecidableEq

/-- Response body shared by both Check handlers. -/
structure CheckResponse where
  allowed : Bool
  country : String
  error : String
deriving Repr, DecidableEq

/-- gRPC status codes used by the gRPC Check handler. -/
inductive GrpcCode where
  | invalidArgument
  | internal
deriving Repr, DecidableEq

/-- The allowed-countries loop of both handlers: linear scan with == on
strings, stopping at the first match. -/
def anyEqual (acs : List String) (country : String) : Bool :=
  match acs with
  | [] => false
  | ac :: rest => if ac == country then true else anyEqual rest country

/-- Model of the gRPC Handler.Check: validate the request shape, parse the
IP, look up the country, reject an empty country code as an internal
error, and otherwise answer with the allowed-flag and the country. -/
def grpcCheck (env : GeoEnv) (parseIP : String → Option IP) (r : MmdbReader)
    (req : Option CheckRequest) : Except (GrpcCode × String) CheckResponse :=
  match req with
  | none => .error (.invalidArgument, "request is required")
  | some rq =>
      if rq.ip = "" then .error (.invalidArgument, "ip is required")
      else if rq.allowedCountries.isEmpty then
        .error (.invalidArgument, "allowed_countries is required")
      else
        match parseIP rq.ip with
        | none => .error (.invalidArgument, "invalid IP address")
        | some ip =>
            match r.LookupCountry env ip with
            | .error _ => .error (.internal, "lookup failed")
            | .ok country =>
                if country = "" then .error (.internal, "lookup returned empty country")
                else .ok { allowed := anyEqual rq.allowedCountries country,
                           country := country, error := "" }

/-- Result of the HTTP Handler.Check: the status code written together
with the JSON response body. -/
inductive HttpResult where
  | badRequest (resp : CheckResponse)
  | internalError (resp : CheckResponse)
  | ok (resp : CheckResponse)
deriving Repr, DecidableEq

/-- Model of the HTTP Handler.Check: JSON binding (modelled as an Except
parameter, since gin performs it), IP parsing, lookup, and the response;
note there is no empty-country check on this path. -/
def httpCheck (env : GeoEnv) (parseIP : String → Option IP) (r : MmdbReader)
    (bindResult : Except String CheckRequest) : HttpResult :=
  match bindResult with
  | .error e =>
      .badRequest { allowed := false, country := "", error := "invalid request: " ++ e }
  | .ok rq =>
      match parseIP rq.ip with
      | none => .badRequest { allowed := false, country := "", error := "invalid IP address" }
      | some ip =>
          match r.LookupCountry env ip with
          | .error _ =>
              .internalError { allowed := false, country := "", error := "lookup failed" }
          | .ok country =>
              .ok { allowed := anyEqual rq.allowedCountries country,
                    country := country, error := "" }

/-! ## Interleaving model of LookupCountry racing with reload

LookupCountry is two atomic steps: the atomic Load of the slot, then the
Country query on the loaded handle.  reload is three atomic steps: the
geoip2.Open (which may fail, leaving the state untouched), the atomic
Swap, and the Close of the swapped-out handle.  Handles opened by reload
are fresh ids from a counter.  badUse records that a Country query ran on
a handle whose Close had already happened. -/

/-- Program position of the reload path: idle, holding a freshly opened
handle (before the Swap), or holding the swapped-out old handle (before
its Close). -/
inductive RlPhase where
  | idle
  | opened (h : Nat)
  | swapped (old : Option Nat)
deriving Repr, DecidableEq

/-- Interleaving-model state: the atomic.Pointer slot (none is Go's nil
initial pointer, never seen after construction), the handles already
Close()d, a fresh-id counter, the lookup goroutine's loaded handle, the
reload path's position, and the use-after-release flag. -/
structure SysState where
  active : Option Nat
  released : List Nat
  nextId : Nat
  lkLoaded : Option Nat
  rl : RlPhase
  badUse : Bool
deriving Repr, DecidableEq

/-- Scheduler choice: advance the lookup goroutine, or advance the reload
path (openOk tells whether a geoip2.Open performed at this step succeeds). -/
inductive Tag where
  | lk
  | rl (openOk : Bool)
deriving Repr, DecidableEq

/-- One atomic step of the chosen thread.  Lookup: Load the slot, then
query the loaded handle (flagging badUse if that handle was already
released).  Reload: Open (no-op on failure), Swap (installs the new
handle, capturing the old one), Close of the old handle. -/
def sysStep (s : SysState) (t : Tag) : SysState :=
  match t with
  | .lk =>
      match s.lkLoaded with
      | none => { s with lkLoaded := s.active }
      | some h => { s with lkLoaded := none, badUse := s.badUse || s.released.contains h }
  | .rl openOk =>
      match s.rl with
      | .idle =>
          if openOk then { s with rl := .opened s.nextId, nextId := s.nextId + 1 } else s
      | .opened h => { s with active := some h, rl := .swapped s.active }
      | .swapped old =>
          { s with rl := .idle,
                   released := (match old with | some o => o :: s.released | none => s.released) }

/-- Run a schedule of atomic steps. -/
def sysRun (s : SysState) (sched : List Tag) : SysState := sched.foldl sysStep s

/-- The state right after a successful NewMmdbReader: the opened handle
(id 0) has been stored in the slot, nothing is released, no lookup is in
flight, and the reload path is idle. -/
def sysInit : SysState :=
  { active := some 0, released := [], nextId := 1, lkLoaded := none,
    rl := .idle, badUse := false }

/-- The interleaving exhibiting use-after-release: the lookup Loads handle
0; a reload Opens handle 1, Swaps it in, and Closes handle 0; the lookup
then queries handle 0. -/
def useAfterReleaseSchedule : List Tag :=
  [Tag.lk, Tag.rl true, Tag.rl true, Tag.rl true, Tag.lk]

/-! ## Concrete instances used by witnesses and counterexamples -/

/-- A reader as produced by a successful NewMmdbReader on handle 0. -/
def sampleReader : MmdbReader :=
  { db := 0, path := "/data/GeoLite2-Country.mmdb", doneClosed := false,
    watcherRunning := true }

/-- Environment where opening succeeds with handle 0, every query answers
GB, and closing succeeds. -/
def envGB : GeoEnv :=
  { openResult := fun _ => .ok 0
    country := fun _ _ => .ok { isoCode := "GB" }
    closeResult := fun _ => .ok () }

/-- Environment where every open fails (missing or invalid database). -/
def envOpenFail : GeoEnv :=
  { openResult := fun _ => .error "invalid MaxMind DB file"
    country := fun _ _ => .ok { isoCode := "GB" }
    closeResult := fun _ => .ok () }

/-- Environment where the query succeeds but yields an empty country code
(a database with no record for the address). -/
def envEmptyCode : GeoEnv :=
  { openResult := fun _ => .ok 0
    country := fun _ _ => .ok { isoCode := "" }
    closeResult := fun _ => .ok () }

/-! ## Helper lemmas -/

/-- The allowed-countries scan succeeds exactly on membership. -/
theorem anyEqual_eq_mem (acs : List String) (c : String) :
    anyEqual acs c = decide (c ∈ acs) := by
  induction acs with
  | nil => simp [anyEqual]
  | cons a rest ih =>
      simp only [anyEqual, List.mem_cons, ih]
      by_cases h : a = c
      · subst h; simp
      · have h2 : ¬ (c = a) := fun hh => h hh.symm
        simp [h, h2]

/-- A step of the interleaving model never writes nil into the slot. -/
theorem sysStep_active_isSome (s : SysState) (t : Tag)
    (h : s.active.isSome = true) : (sysStep s t).active.isSome = true := by
  cases t with
  | lk => cases hl : s.lkLoaded <;> simp [sysStep, hl, h]
  | rl openOk =>
      cases hr : s.rl with
      | idle => cases openOk <;> simp [sysStep, hr, h]
      | opened hh => simp [sysStep, hr]
      | swapped old => simp [sysStep, hr, h]

/-! ## Claims -/

/-- Claim C1 (bug exhibit): on the schedule where the lookup Loads handle
0, a reload then Opens handle 1, Swaps it in and Closes handle 0, and the
lookup finally queries handle 0, the query reads a handle that has already
been released: the final state has badUse set, with handle 0 released and
handle 1 active.  The code has no in-flight-reader counter, so the
no-use-after-release property claimed by the spec fails. -/
theorem reload_use_after_release :
    (sysRun sysInit useAfterReleaseSchedule).badUse = true ∧
    (sysRun sysInit useAfterReleaseSchedule).released = [0] ∧
    (sysRun sysInit useAfterReleaseSchedule).active = some 1 :=
  ⟨rfl, rfl, rfl⟩

/-- Claim C2 (counterexample): with a database whose query succeeds but
yields an empty country code, LookupCountry returns the empty string as a
successful result instead of failing. -/
theorem lookupCountry_returns_empty_ok :
    envEmptyCode.country sampleReader.db "81.2.69.142" = Except.ok { isoCode := "" } ∧
    sampleReader.LookupCountry envEmptyCode "81.2.69.142" = Except.ok "" :=
  ⟨rfl, rfl⟩

/-- Claim C2 (amended): when the underlying query succeeds with an empty
country code, LookupCountry returns the empty string successfully; the
gRPC Check handler is the layer that converts this into an internal
lookup-returned-empty-country error. -/
theorem lookupCountry_empty_ok_grpc_internal (env : GeoEnv) (r : MmdbReader)
    (ip : IP) (rec : GeoRecord) (parseIP : String → Option IP) (rq : CheckRequest)
    (hq : env.country r.db ip = Except.ok rec) (he : rec.isoCode = "")
    (hip : rq.ip ≠ "") (hac : rq.allowedCountries.isEmpty = false)
    (hp : parseIP rq.ip = some ip) :
    r.LookupCountry env ip = Except.ok "" ∧
    grpcCheck env parseIP r (some rq) =
      Except.error (GrpcCode.internal, "lookup returned empty country") := by
  have hlk : r.LookupCountry env ip = Except.ok "" := by
    simp [MmdbReader.LookupCountry, hq, he]
  refine ⟨hlk, ?_⟩
  simp [grpcCheck, hip, hac, hp, hlk]

/-- Witness for the amended C2 at a concrete environment and request. -/
theorem lookupCountry_empty_ok_grpc_internal_witness :
    sampleReader.LookupCountry envEmptyCode "81.2.69.142" = Except.ok "" ∧
    grpcCheck envEmptyCode (fun s => some s) sampleReader
      (some { ip := "81.2.69.142", allowedCountries := ["GB"] }) =
      Except.error (GrpcCode.internal, "lookup returned empty country") :=
  lookupCountry_empty_ok_grpc_internal envEmptyCode sampleReader "81.2.69.142"
    { isoCode := "" } (fun s => some s)
    { ip := "81.2.69.142", allowedCountries := ["GB"] }
    rfl rfl (by decide) rfl rfl

/-- Claim C3: when opening the fresh handle fails, reload returns the
wrapped open error, leaves the reader state (in particular the active
handle) unchanged, and any later lookup behaves exactly as if the reload
had never been attempted. -/
theorem reload_open_failure_is_noop (env : GeoEnv) (r : MmdbReader)
    (e : String) (ip : IP) (h : env.openResult r.path = Except.error e) :
    (r.reload env).1 = Except.error ("failed to open new MMDB file: " ++ e) ∧
    (r.reload env).2 = r ∧
    (r.reload env).2.LookupCountry env ip = r.LookupCountry env ip := by
  have h2 : (r.reload env).2 = r := by simp [MmdbReader.reload, h]
  exact ⟨by simp [MmdbReader.reload, h], h2, by rw [h2]⟩

/-- Witness for C3 at a concrete failing environment. -/
theorem reload_open_failure_is_noop_witness :
    (sampleReader.reload envOpenFail).1 =
      Except.error ("failed to open new MMDB file: " ++ "invalid MaxMind DB file") ∧
    (sampleReader.reload envOpenFail).2 = sampleReader ∧
    (sampleReader.reload envOpenFail).2.LookupCountry envOpenFail "1.2.3.4" =
      sampleReader.LookupCountry envOpenFail "1.2.3.4" :=
  reload_open_failure_is_noop envOpenFail sampleReader "invalid MaxMind DB file"
    "1.2.3.4" rfl

/-- Claim C4: from the post-construction state, under every interleaving
of lookup and reload steps the active-handle slot always holds a handle:
the initial store and every reload swap install a non-null handle, so the
slot is never nil. -/
theorem active_handle_never_null (sched : List Tag) :
    (sysRun sysInit sched).active.isSome = true := by
  have key : ∀ (l : List Tag) (s : SysState), s.active.isSome = true →
      (sysRun s l).active.isSome = true := by
    intro l
    induction l with
    | nil => intro s h; exact h
    | cons t rest ih => intro s h; exact ih (sysStep s t) (sysStep_active_isSome s t h)
  exact key sched sysInit rfl

/-- Witness for C4 at a concrete schedule. -/
theorem active_handle_never_null_witness :
    (sysRun sysInit useAfterReleaseSchedule).active.isSome = true :=
  active_handle_never_null useAfterReleaseSchedule

/-- Claim C5: the watcher loop body attempts a reload exactly when the
event file name has the same base name as the watched path and the event
operation has the Write or the Create bit; any other event attempts no
reload and leaves the reader unchanged. -/
theorem watcher_reacts_iff_matching_create_or_write (env : GeoEnv)
    (r : MmdbReader) (e : FsEvent) :
    ((r.handleEvent env e).1 = true ↔
      (filepathBase e.name = filepathBase r.path ∧
        (opHas e.op fsnotifyWrite = true ∨ opHas e.op fsnotifyCreate = true))) ∧
    ((r.handleEvent env e).1 = false → (r.handleEvent env e).2 = r) := by
  cases hB : (filepathBase e.name == filepathBase r.path) <;>
    cases hW : (opHas e.op fsnotifyWrite || opHas e.op fsnotifyCreate) <;>
    refine ⟨?_, ?_⟩ <;>
    simp_all [MmdbReader.handleEvent, beq_eq_false_iff_ne]

/-- Witness for C5 at a concrete event on the watched file with the Write
bit set. -/
theorem watcher_reacts_witness :
    ((sampleReader.handleEvent envGB
        { name := "/data/GeoLite2-Country.mmdb", op := 2 }).1 = true ↔
      (filepathBase "/data/GeoLite2-Country.mmdb" = filepathBase sampleReader.path ∧
        (opHas 2 fsnotifyWrite = true ∨ opHas 2 fsnotifyCreate = true))) ∧
    ((sampleReader.handleEvent envGB
        { name := "/data/GeoLite2-Country.mmdb", op := 2 }).1 = false →
      (sampleReader.handleEvent envGB
        { name := "/data/GeoLite2-Country.mmdb", op := 2 }).2 = sampleReader) :=
  watcher_reacts_iff_matching_create_or_write envGB sampleReader
    { name := "/data/GeoLite2-Country.mmdb", op := 2 }

/-- Claim C6: a first Close on an open reader signals the watcher to stop
(the done channel becomes closed) and returns exactly the result of
releasing the active handle, so the call errors precisely when resource
release errors and the watcher-stop step itself never fails the call. -/
theorem close_first_call_releases_handle (env : GeoEnv) (r : MmdbReader)
    (h : r.doneClosed = false) :
    (r.Close env).1 = CloseOutcome.returned (env.closeResult r.db) ∧
    (r.Close env).2.doneClosed = true := by
  simp [MmdbReader.Close, h]

/-- Witness for C6 at a concrete open reader. -/
theorem close_first_call_releases_handle_witness :
    (sampleReader.Close envGB).1 =
      CloseOutcome.returned (envGB.closeResult sampleReader.db) ∧
    (sampleReader.Close envGB).2.doneClosed = true :=
  close_first_call_releases_handle envGB sampleReader rfl

/-- Claim C7: when opening the database fails, NewMmdbReader returns the
wrapped open error, produces no reader value, and leaves no background
watching goroutine running. -/
theorem newMmdbReader_open_failure (env : GeoEnv) (watchOk : Bool)
    (path : String) (e : String) (h : env.openResult path = Except.error e) :
    (NewMmdbReader env watchOk path).1 =
      Except.error ("failed to open MMDB file: " ++ e) ∧
    (NewMmdbReader env watchOk path).2 = false := by
  simp [NewMmdbReader, h]

/-- Witness for C7 at a concrete failing path. -/
theorem newMmdbReader_open_failure_witness :
    (NewMmdbReader envOpenFail true "/nonexistent/path.mmdb").1 =
      Except.error ("failed to open MMDB file: " ++ "invalid MaxMind DB file") ∧
    (NewMmdbReader envOpenFail true "/nonexistent/path.mmdb").2 = false :=
  newMmdbReader_open_failure envOpenFail true "/nonexistent/path.mmdb"
    "invalid MaxMind DB file" rfl

/-- Claim C8: when the database opens but watcher setup fails,
construction still succeeds with a reader holding the opened handle, no
background watcher is left running (hot-reload disabled), and lookups work
against the initially-opened handle. -/
theorem newMmdbReader_watch_failure_nonfatal (env : GeoEnv) (path : String)
    (db : Nat) (ip : IP) (rec : GeoRecord)
    (ho : env.openResult path = Except.ok db)
    (hc : env.country db ip = Except.ok rec) :
    (NewMmdbReader env false path).1 =
      Except.ok { db := db, path := path, doneClosed := false, watcherRunning := false } ∧
    (NewMmdbReader env false path).2 = false ∧
    MmdbReader.LookupCountry
      { db := db, path := path, doneClosed := false, watcherRunning := false } env ip =
      Except.ok rec.isoCode := by
  refine ⟨by simp [NewMmdbReader, ho], by simp [NewMmdbReader, ho], ?_⟩
  simp [MmdbReader.LookupCountry, hc]

/-- Witness for C8 at a concrete environment. -/
theorem newMmdbReader_watch_failure_nonfatal_witness :
    (NewMmdbReader envGB false "/data/GeoLite2-Country.mmdb").1 =
      Except.ok { db := 0, path := "/data/GeoLite2-Country.mmdb",
                  doneClosed := false, watcherRunning := false } ∧
    (NewMmdbReader envGB false "/data/GeoLite2-Country.mmdb").2 = false ∧
    MmdbReader.LookupCountry
      { db := 0, path := "/data/GeoLite2-Country.mmdb",
        doneClosed := false, watcherRunning := false } envGB "2.125.160.216" =
      Except.ok "GB" :=
  newMmdbReader_watch_failure_nonfatal envGB "/data/GeoLite2-Country.mmdb" 0
    "2.125.160.216" { isoCode := "GB" } rfl rfl

/-- Claim C9: a second Close after a first Close on an open reader panics
(the done channel is already closed) instead of returning a result. -/
theorem close_second_call_panics (env : GeoEnv) (r : MmdbReader)
    (h : r.doneClosed = false) :
    (((r.Close env).2).Close env).1 = CloseOutcome.panicked := by
  simp [MmdbReader.Close, h]

/-- Witness for C9 at a concrete open reader. -/
theorem close_second_call_panics_witness :
    (((sampleReader.Close envGB).2).Close envGB).1 = CloseOutcome.panicked :=
  close_second_call_panics envGB sampleReader rfl

/-- Claim C10: for every check request whose country lookup succeeds, the
HTTP handler answers (unconditionally, even for an empty looked-up code)
with Country equal to the looked-up code and Allowed set exactly when the
code equals some element of the allowed-countries list; the gRPC handler
answers the same way whenever it produces a response at all, i.e. when its
request validations pass and the looked-up code is nonempty. -/
theorem check_allowed_iff_country_in_list (env : GeoEnv)
    (parseIP : String → Option IP) (r : MmdbReader) (rq : CheckRequest)
    (ip : IP) (country : String)
    (hp : parseIP rq.ip = some ip)
    (hlk : r.LookupCountry env ip = Except.ok country) :
    httpCheck env parseIP r (Except.ok rq) =
      HttpResult.ok { allowed := decide (country ∈ rq.allowedCountries),
                      country := country, error := "" } ∧
    (rq.ip ≠ "" → rq.allowedCountries.isEmpty = false → country ≠ "" →
      grpcCheck env parseIP r (some rq) =
        Except.ok { allowed := decide (country ∈ rq.allowedCountries),
                    country := country, error := "" }) := by
  constructor
  · simp [httpCheck, hp, hlk, anyEqual_eq_mem]
  · intro hip hac hcne
    simp [grpcCheck, hip, hac, hp, hlk, hcne, anyEqual_eq_mem]

/-- Witness for C10 at a concrete request whose lookup answers GB, with
the gRPC-side guards discharged. -/
theorem check_allowed_iff_country_in_list_witness :
    httpCheck envGB (fun s => some s) sampleReader
      (Except.ok { ip := "2.125.160.216", allowedCountries := ["US", "GB"] }) =
      HttpResult.ok { allowed := decide ("GB" ∈ ["US", "GB"]),
                      country := "GB", error := "" } ∧
    grpcCheck envGB (fun s => some s) sampleReader
      (some { ip := "2.125.160.216", allowedCountries := ["US", "GB"] }) =
      Except.ok { allowed := decide ("GB" ∈ ["US", "GB"]),
                  country := "GB", error := "" } :=
  And.intro
    (check_allowed_iff_country_in_list envGB (fun s => some s) sampleReader
      { ip := "2.125.160.216", allowedCountries := ["US", "GB"] }
      "2.125.160.216" "GB" rfl rfl).1
    ((check_allowed_iff_country_in_list envGB (fun s => some s) sampleReader
      { ip := "2.125.160.216", allowedCountries := ["US", "GB"] }
      "2.125.160.216" "GB" rfl rfl).2 (by decide) rfl (by decide))
